import Mathlib

/-!
Verification of `rt-pdf-from-markdown` (src/main.py, src/paths.py).

The program is a batch Markdown-to-PDF converter.  We give a shallow
embedding of its pure logic (path computation, CSS generation, config key
lookup, renderer-option building) and of its effectful control flow
(writability probe, per-file conversion with temporary-file cleanup,
directory processing) as explicit state-passing functions over abstract
environments that describe the outcomes of external operations
(filesystem, subprocess, external renderer).

Python exceptions are modelled with the `PyErr` type and `Except`;
`IOError`/`OSError` is the `ioError` constructor (in Python 3 `IOError`
is an alias of `OSError`, and `FileNotFoundError`, `IsADirectoryError`,
`PermissionError` are subclasses of it).
-/

namespace MdToPdf

/-- A path component (a file or directory name), as its character list. -/
abbrev Name := List Char

/-- A filesystem path, as its list of components (`pathlib.PurePath.parts`,
with any root treated as leading components). -/
abbrev PyPath := List Name

/-- Shorthand turning a string literal into a component name. -/
def nm (s : String) : Name := s.data

/-- Index of the last `'.'` in a name (`str.rfind('.')` when a dot exists). -/
def lastDotIdx (cs : Name) : Option Nat :=
  match cs.reverse.findIdx? (fun c => c = '.') with
  | none => none
  | some j => some (cs.length - 1 - j)

/-- `pathlib.PurePath.suffix` of a final component: the substring from the
last dot, provided that dot is neither the first nor the last character;
otherwise empty. -/
def pySuffix (cs : Name) : Name :=
  match lastDotIdx cs with
  | none => []
  | some i => if 0 < i ∧ i + 1 < cs.length then cs.drop i else []

/-- `pathlib.PurePath.with_suffix` on a final component: strip the old
suffix (if any) and append the new one. -/
def pyWithSuffix (cs : Name) (suffix : Name) : Name :=
  let old := pySuffix cs
  if old = [] then cs ++ suffix else cs.take (cs.length - old.length) ++ suffix

/-- `with_suffix` lifted to a path: rewrite the final component. -/
def path_with_suffix (p : PyPath) (suffix : Name) : PyPath :=
  p.dropLast ++ [pyWithSuffix (p.getLastD []) suffix]

/-- `Path.relative_to`: drop the base prefix; `none` models the
`ValueError` raised when `base` is not a prefix of `p`. -/
def relative_to (p base : PyPath) : Option PyPath :=
  if base <+: p then some (p.drop base.length) else none

/-- The `.md` extension. -/
def mdExt : Name := nm ".md"

/-- The `.markdown` extension. -/
def markdownExt : Name := nm ".markdown"

/-- The `.pdf` extension. -/
def pdfExt : Name := nm ".pdf"

/-- The output path computed in `process_directory` (main.py lines 250-251):
`rel_path = md_file.relative_to(input_dir)`;
`output_path = Path(output_dir) / rel_path.with_suffix(".pdf")`. -/
def computeOutputPath (input_dir output_dir md_file : PyPath) : Option PyPath :=
  (relative_to md_file input_dir).map fun rel =>
    output_dir ++ path_with_suffix rel pdfExt

/-! ### Python error model -/
/-- A (nested) configuration key path, e.g. `["document", "margins", "top"]`. -/
abbrev Key := List String

/-- Python exceptions relevant to this program.  `ioError` stands for the
`OSError`/`IOError` family (including `FileNotFoundError` and
`IsADirectoryError`); `permissionError` for `PermissionError` (which in
Python 3 is itself a subclass of `OSError`); `keyError` for the `KeyError`
raised by a missing dict key; `wrapped` for the generic
`Exception(f"Error converting markdown to PDF: ...")` re-raise. -/
inductive PyErr where
  | ioError : PyErr
  | keyError : Key → PyErr
  | valueError : PyErr
  | permissionError : PyErr
  | wrapped : PyErr → PyErr
  deriving DecidableEq, Repr

/-- Whether an exception is caught by `except IOError` (the `OSError`
family, which includes `PermissionError` in Python 3). -/
def PyErr.isIOError : PyErr → Bool
  | .ioError => true
  | .permissionError => true
  | _ => false

/-- Whether an `Except` result is a success. -/
def exOk {α : Type} : Except PyErr α → Bool
  | .ok _ => true
  | .error _ => false

instance {ε α : Type} [DecidableEq ε] [DecidableEq α] :
    DecidableEq (Except ε α) := fun x y =>
  match x, y with
  | .ok a, .ok b =>
    if h : a = b then isTrue (by rw [h])
    else isFalse (by intro hc; cases hc; exact h rfl)
  | .ok _, .error _ => isFalse (by intro hc; cases hc)
  | .error _, .ok _ => isFalse (by intro hc; cases hc)
  | .error e, .error f =>
    if h : e = f then isTrue (by rw [h])
    else isFalse (by intro hc; cases hc; exact h rfl)

/-! ### Configuration model

The YAML configuration is loaded by `load_config` into a nested dict; we
model it as a flat association list from full key paths to string values.
A lookup of a missing path raises `KeyError`, exactly as
`config['a']['b']['c']` does at the first missing level. -/
/-- The configuration mapping. -/
abbrev Config := List (Key × String)

/-- `config['k1']['k2']...`: value at a key path, or a `KeyError`. -/
def lookupKey (config : Config) (k : Key) : Except PyErr String :=
  match config.find? (fun kv => kv.1 = k) with
  | some kv => .ok kv.2
  | none => .error (.keyError k)

/-- The key paths read by `generate_css`, in the order the f-string
template reads them (main.py lines 24-65). -/
def cssKeys : List Key :=
  [["fonts", "main", "family"], ["fonts", "main", "size"],
   ["fonts", "main", "line_height"], ["document", "margins", "top"],
   ["colors", "background"], ["colors", "text"],
   ["fonts", "code", "family"], ["fonts", "code", "size"],
   ["fonts", "code", "background"], ["fonts", "code", "padding"],
   ["fonts", "code", "border_radius"],
   ["fonts", "pre", "family"], ["fonts", "pre", "size"],
   ["fonts", "pre", "background"], ["fonts", "pre", "padding"],
   ["fonts", "pre", "border_radius"],
   ["tables", "margin"], ["tables", "border_width"],
   ["colors", "table_border"], ["tables", "cell_padding"],
   ["colors", "table_header_bg"], ["images", "max_width"]]

/-- The key paths read when building the renderer options dict
(main.py lines 198-213). -/
def optionKeys : List Key :=
  [["document", "page_size"], ["document", "margins", "top"],
   ["document", "margins", "right"], ["document", "margins", "bottom"],
   ["document", "margins", "left"]]

/-- The required style keys of spec section 6. -/
def requiredKeys : List Key :=
  [["document", "page_size"],
   ["document", "margins", "top"], ["document", "margins", "right"],
   ["document", "margins", "bottom"], ["document", "margins", "left"],
   ["fonts", "main", "family"], ["fonts", "main", "size"],
   ["fonts", "main", "line_height"],
   ["fonts", "code", "family"], ["fonts", "code", "size"],
   ["fonts", "code", "background"], ["fonts", "code", "padding"],
   ["fonts", "code", "border_radius"],
   ["fonts", "pre", "family"], ["fonts", "pre", "size"],
   ["fonts", "pre", "background"], ["fonts", "pre", "padding"],
   ["fonts", "pre", "border_radius"],
   ["colors", "background"], ["colors", "text"],
   ["colors", "table_border"], ["colors", "table_header_bg"],
   ["tables", "margin"], ["tables", "border_width"],
   ["tables", "cell_padding"], ["images", "max_width"]]

/-- `generate_css` (main.py lines 22-65): substitute configuration values
into the fixed CSS template.  The whole f-string is evaluated at once, so
either every key is present and the full CSS text is returned, or the
first missing key raises `KeyError` and no CSS text is produced at all.
Literal braces of the CSS are written `\x7b`/`\x7d`. -/
def generate_css (config : Config) : Except PyErr String := do
  let fontsMainFamily ← lookupKey config ["fonts", "main", "family"]
  let fontsMainSize ← lookupKey config ["fonts", "main", "size"]
  let fontsMainLineHeight ← lookupKey config ["fonts", "main", "line_height"]
  let marginsTop ← lookupKey config ["document", "margins", "top"]
  let colorsBackground ← lookupKey config ["colors", "background"]
  let colorsText ← lookupKey config ["colors", "text"]
  let fontsCodeFamily ← lookupKey config ["fonts", "code", "family"]
  let fontsCodeSize ← lookupKey config ["fonts", "code", "size"]
  let fontsCodeBackground ← lookupKey config ["fonts", "code", "background"]
  let fontsCodePadding ← lookupKey config ["fonts", "code", "padding"]
  let fontsCodeBorderRadius ← lookupKey config ["fonts", "code", "border_radius"]
  let fontsPreFamily ← lookupKey config ["fonts", "pre", "family"]
  let fontsPreSize ← lookupKey config ["fonts", "pre", "size"]
  let fontsPreBackground ← lookupKey config ["fonts", "pre", "background"]
  let fontsPrePadding ← lookupKey config ["fonts", "pre", "padding"]
  let fontsPreBorderRadius ← lookupKey config ["fonts", "pre", "border_radius"]
  let tablesMargin ← lookupKey config ["tables", "margin"]
  let tablesBorderWidth ← lookupKey config ["tables", "border_width"]
  let colorsTableBorder ← lookupKey config ["colors", "table_border"]
  let tablesCellPadding ← lookupKey config ["tables", "cell_padding"]
  let colorsTableHeaderBg ← lookupKey config ["colors", "table_header_bg"]
  let imagesMaxWidth ← lookupKey config ["images", "max_width"]
  pure ("\n        body \x7b\n            font-family: " ++ fontsMainFamily
    ++ ";\n            font-size: " ++ fontsMainSize
    ++ ";\n            line-height: " ++ fontsMainLineHeight
    ++ ";\n            margin: " ++ marginsTop
    ++ ";\n            background-color: " ++ colorsBackground
    ++ ";\n            color: " ++ colorsText
    ++ ";\n        \x7d\n        code \x7b\n            font-family: " ++ fontsCodeFamily
    ++ ";\n            font-size: " ++ fontsCodeSize
    ++ ";\n            background-color: " ++ fontsCodeBackground
    ++ ";\n            padding: " ++ fontsCodePadding
    ++ ";\n            border-radius: " ++ fontsCodeBorderRadius
    ++ ";\n        \x7d\n        pre \x7b\n            font-family: " ++ fontsPreFamily
    ++ ";\n            font-size: " ++ fontsPreSize
    ++ ";\n            background-color: " ++ fontsPreBackground
    ++ ";\n            padding: " ++ fontsPrePadding
    ++ ";\n            border-radius: " ++ fontsPreBorderRadius
    ++ ";\n            white-space: pre-wrap;\n        \x7d\n        table \x7b\n            border-collapse: collapse;\n            margin: "
    ++ tablesMargin
    ++ ";\n            width: 100%;\n        \x7d\n        th, td \x7b\n            border: "
    ++ tablesBorderWidth ++ " solid " ++ colorsTableBorder
    ++ ";\n            padding: " ++ tablesCellPadding
    ++ ";\n            text-align: left;\n        \x7d\n        th \x7b\n            background-color: "
    ++ colorsTableHeaderBg
    ++ ";\n        \x7d\n        img \x7b\n            max-width: " ++ imagesMaxWidth
    ++ ";\n            height: auto;\n        \x7d\n    ")

/-- The renderer options dict of `convert_markdown_to_pdf`
(main.py lines 198-213), with its config lookups evaluated in source
order; a `none` value models a valueless wkhtmltopdf flag. -/
def buildOptions (config : Config) : Except PyErr (List (String × Option String)) := do
  let pageSize ← lookupKey config ["document", "page_size"]
  let marginTop ← lookupKey config ["document", "margins", "top"]
  let marginRight ← lookupKey config ["document", "margins", "right"]
  let marginBottom ← lookupKey config ["document", "margins", "bottom"]
  let marginLeft ← lookupKey config ["document", "margins", "left"]
  pure [("encoding", some "UTF-8"),
        ("enable-local-file-access", none),
        ("print-media-type", none),
        ("page-size", some pageSize),
        ("margin-top", some marginTop),
        ("margin-right", some marginRight),
        ("margin-bottom", some marginBottom),
        ("margin-left", some marginLeft),
        ("no-outline", none),
        ("enable-smart-shrinking", none),
        ("footer-right", some "Page [page]"),
        ("footer-font-name", some "Arial"),
        ("footer-font-size", some "10"),
        ("footer-spacing", some "5")]

/-! ### Writability probe -/
/-- Environment for one `check_file_writable` call: whether the path
exists, and the outcomes of the two probing operations
(`open(file_path, "a")` and `tempfile.NamedTemporaryFile(dir=parent)`). -/
structure FileEnv where
  fileExists : Bool
  openAppend : Except PyErr Unit
  tempCreate : Except PyErr Unit

/-- `check_file_writable` (main.py lines 133-148): for an existing path,
try to open it for append; otherwise try to create a temporary file in
its parent directory.  `except IOError` turns an `OSError`-family failure
into `False`; any other exception propagates. -/
def check_file_writable (e : FileEnv) : Except PyErr Bool :=
  if e.fileExists then
    match e.openAppend with
    | .ok _ => .ok true
    | .error err => if err.isIOError then .ok false else .error err
  else
    match e.tempCreate with
    | .ok _ => .ok true
    | .error err => if err.isIOError then .ok false else .error err

/-! ### Renderer locator -/
/-- Python `str.strip()`: remove leading and trailing whitespace. -/
def pyStrip (s : String) : String :=
  String.mk (((s.data.dropWhile Char.isWhitespace).reverse.dropWhile
    Char.isWhitespace).reverse)

/-- Environment for one `find_wkhtmltopdf` call: the lowered OS name, the
outcome of the `subprocess.run([search_command, "wkhtmltopdf"], ...)` call
(return code and stdout, or a raised exception), `sys.prefix`, the
`os.path.exists` predicate, the two `ProgramFiles` environment variables,
and the result of the recursive `os.walk` scan of a root directory (the
joined path of the first directory found to contain `wkhtmltopdf.exe`). -/
structure LocEnv where
  system : String
  runOutcome : Except PyErr (Int × String)
  sysPrefixDir : String
  pathExists : String → Bool
  envProgramFiles : Option String
  envProgramFilesX86 : Option String
  walkFind : String → Option String

/-- The fixed per-OS list of well-known install paths
(main.py lines 76-89), in source order. -/
def common_paths (env : LocEnv) : List String :=
  if env.system = "windows" then
    ["C:\\Program Files\\wkhtmltopdf\\bin\\wkhtmltopdf.exe",
     "C:\\Program Files (x86)\\wkhtmltopdf\\bin\\wkhtmltopdf.exe",
     env.sysPrefixDir ++ "\\Scripts\\wkhtmltopdf.exe"]
  else
    ["/usr/local/bin/wkhtmltopdf", "/usr/bin/wkhtmltopdf",
     "/opt/homebrew/bin/wkhtmltopdf"]

/-- The two Program Files roots scanned as a last resort on Windows
(main.py lines 112-115), with their defaults. -/
def programFilesRoots (env : LocEnv) : List String :=
  [env.envProgramFiles.getD "C:\\Program Files",
   env.envProgramFilesX86.getD "C:\\Program Files (x86)"]

/-- `for root_dir in program_files: for root, dirs, files in os.walk ...`
(main.py lines 117-120): first hit over the listed roots wins. -/
def walkSearch (env : LocEnv) : List String → Option String
  | [] => none
  | r :: rs =>
    match env.walkFind r with
    | some p => some p
    | none => walkSearch env rs

/-- Stages 2 and 3 of `find_wkhtmltopdf` (main.py lines 106-122): the
common-path scan, then the Windows-only Program Files walk, then `None`. -/
def afterPathCheck (env : LocEnv) : Option String :=
  match (common_paths env).find? env.pathExists with
  | some p => some p
  | none =>
    if env.system = "windows" then walkSearch env (programFilesRoots env)
    else none

/-- `find_wkhtmltopdf` (main.py lines 68-122): first the PATH search via
`where`/`which` (any exception swallowed, result accepted only on return
code 0, stdout stripped), then the common install paths, then the
Windows-only Program Files walk, else `None`. -/
def find_wkhtmltopdf (env : LocEnv) : Option String :=
  match env.runOutcome with
  | .ok (code, out) =>
    if code = 0 then some (pyStrip out) else afterPathCheck env
  | .error _ => afterPathCheck env

/-! Spec-side description of the locator (spec section 4.3): three
strictly ordered stages, first match wins. -/
/-- Modelled from the spec: stage 1, "Ask the OS shell for the
executable's location via a PATH-search command; accept only a
zero-exit-code result." -/
def stagePATH (env : LocEnv) : Option String :=
  match env.runOutcome with
  | .ok (code, out) => if code = 0 then some (pyStrip out) else none
  | .error _ => none

/-- Modelled from the spec: stage 2, "Check a fixed list of well-known
per-OS install paths (checked in list order; first existing path wins)." -/
def stageCommon (env : LocEnv) : Option String :=
  (common_paths env).find? env.pathExists

/-- Modelled from the spec: stage 3, "(Windows only) Recursively scan both
Program Files roots for the executable filename; first match wins." -/
def stageWalk (env : LocEnv) : Option String :=
  if env.system = "windows" then walkSearch env (programFilesRoots env)
  else none

/-- Modelled from the spec: the whole locator as the ordered
first-match-wins composition of the three stages, `None` if all fail. -/
def locator_spec (env : LocEnv) : Option String :=
  ((stagePATH env).orElse fun _ =>
    ((stageCommon env).orElse fun _ => stageWalk env))

/-! ### Conversion of one file -/
/-- One console line, by kind (the printed f-string's varying data is
carried as payload). -/
inductive OutEvent where
  | fileSuccess : PyPath → OutEvent
  | fileError : PyPath → PyErr → OutEvent
  | rendererMissing : OutEvent
  | noFiles : OutEvent
  | converting : Nat → OutEvent
  | done : OutEvent
  deriving DecidableEq, Repr

/-- Observable program state threaded through a run: the temporary HTML
files currently on disk (name and content), the number of renderer
(`pdfkit.from_file`) invocations so far, and the console output. -/
structure S where
  tempFiles : List (String × String)
  renderCalls : Nat
  output : List OutEvent
  deriving DecidableEq, Repr

/-- The initial state: no temp files, no renders, no output. -/
def S.init : S := ⟨[], 0, []⟩

/-- The full styled HTML document built around the CSS and the rendered
HTML fragment (main.py lines 174-186). -/
def styledHtml (css html_content : String) : String :=
  "<!DOCTYPE html>\n<html>\n    <head>\n        <meta charset=\"UTF-8\">\n        <meta name=\"viewport\" content=\"width=device-width, initial-scale=1.0\">\n        <style>\n            "
    ++ css
    ++ "\n        </style>\n    </head>\n    <body>\n        "
    ++ html_content
    ++ "\n    </body>\n</html>"

/-- Environment for one `convert_markdown_to_pdf` call: the outcomes of
its external operations — the writability probe's filesystem behaviour,
reading the input file, the opaque `markdown.markdown` library function,
the temporary file name handed out by `tempfile.NamedTemporaryFile`, the
outcomes of the temp-file creation (`NamedTemporaryFile(delete=False)`)
and of writing the styled HTML into it, and the outcomes of
`pdfkit.configuration` and `pdfkit.from_file`. -/
structure ConvEnv where
  writableEnv : FileEnv
  readResult : Except PyErr String
  mdRender : String → String
  tempName : String
  tempCreateOutcome : Except PyErr Unit
  tempWriteOutcome : Except PyErr Unit
  configurationOutcome : Except PyErr Unit
  renderOutcome : Except PyErr Unit

/-- The body of the outer `try` of `convert_markdown_to_pdf`
(main.py lines 153-220): writability pre-check, read, Markdown render,
CSS generation, then the temp-file block, then the inner `try/finally`
around the renderer invocation with the unconditional `os.unlink`, then
the success print.  The temp-file block (lines 189-191) is a `with`
around `NamedTemporaryFile(delete=False)`: creation failure raises with
no file on disk, but once created the file exists (the stored content
stands for whatever was flushed), and a failure of
`temp_html.write(styled_html)` propagates out of the `with` BEFORE the
`try/finally` is entered — closing does not delete a `delete=False`
file, so on that path the temp file survives and `os.unlink` never
runs. -/
def convertInner (input_path : PyPath) (config : Config) (env : ConvEnv) (s : S) :
    Except PyErr Unit × S :=
  match check_file_writable env.writableEnv with
  | .error e => (.error e, s)
  | .ok false => (.error .permissionError, s)
  | .ok true =>
    match env.readResult with
    | .error e => (.error e, s)
    | .ok markdown_content =>
      let html_content := env.mdRender markdown_content
      match generate_css config with
      | .error e => (.error e, s)
      | .ok css =>
        let styled_html := styledHtml css html_content
        match env.tempCreateOutcome with
        | .error e => (.error e, s)
        | .ok _ =>
          let s1 : S := { s with tempFiles := (env.tempName, styled_html) :: s.tempFiles }
          match env.tempWriteOutcome with
          | .error e => (.error e, s1)
          | .ok _ =>
            let step : Except PyErr Unit × S :=
              match env.configurationOutcome with
              | .error e => (.error e, s1)
              | .ok _ =>
                match buildOptions config with
                | .error e => (.error e, s1)
                | .ok _ => (env.renderOutcome, { s1 with renderCalls := s1.renderCalls + 1 })
            let s2 : S :=
              { step.2 with
                tempFiles := step.2.tempFiles.eraseP (fun t => t.1 = env.tempName) }
            match step.1 with
            | .ok _ => (.ok (), { s2 with output := s2.output ++ [.fileSuccess input_path] })
            | .error e => (.error e, s2)

/-- `convert_markdown_to_pdf` (main.py lines 151-225): run the body; a
`PermissionError` is re-raised as such, any other exception is wrapped
into `Exception("Error converting markdown to PDF: ...")`.  The
`output_path` and `wkhtmltopdf_path` arguments act only through the
environment's outcome fields. -/
def convert_markdown_to_pdf (input_path output_path : PyPath)
    (wkhtmltopdf_path : String) (config : Config) (env : ConvEnv) (s : S) :
    Except PyErr Unit × S :=
  let r := convertInner input_path config env s
  match r.1 with
  | .ok _ => (.ok (), r.2)
  | .error .permissionError => (.error .permissionError, r.2)
  | .error e => (.error (.wrapped e), r.2)

/-! ### Directory processing -/
/-- How a run of `process_directory` terminates: a normal return, a
`sys.exit(code)`, or an unhandled exception (which makes the interpreter
exit non-zero). -/
inductive RunResult where
  | exitSuccess : RunResult
  | exitFailure : Nat → RunResult
  | uncaught : PyErr → RunResult
  deriving DecidableEq, Repr

/-- Process exit status of a run result (an unhandled exception exits 1). -/
def exitCode : RunResult → Nat
  | .exitSuccess => 0
  | .exitFailure c => c
  | .uncaught _ => 1

/-- Environment for one `process_directory` run: the two roots, the
outcome of `load_config`, the result of `find_wkhtmltopdf`, the list
returned by `find_markdown_files(input_dir)`, the outcome of
`output_path.parent.mkdir(parents=True, exist_ok=True)` per parent, and
the per-file conversion environment. -/
structure ProcEnv where
  input_dir : PyPath
  output_dir : PyPath
  loadConfigOutcome : Except PyErr Config
  findResult : Option String
  files : List PyPath
  mkdirOutcome : PyPath → Except PyErr Unit
  convEnv : PyPath → ConvEnv

/-- One iteration of the file loop (main.py lines 249-259): compute the
output path, create its parent directories (NOT inside the `try`), then
call the converter inside `try/except Exception`, logging a caught
failure with the offending path.  The second component is `some e` when
an exception escapes the iteration. -/
def processOne (env : ProcEnv) (config : Config) (wk : String) (md_file : PyPath)
    (s : S) : S × Option PyErr :=
  match computeOutputPath env.input_dir env.output_dir md_file with
  | none => (s, some .valueError)
  | some output_path =>
    match env.mkdirOutcome output_path.dropLast with
    | .error e => (s, some e)
    | .ok _ =>
      let r := convert_markdown_to_pdf md_file output_path wk config
        (env.convEnv md_file) s
      match r.1 with
      | .ok _ => (r.2, none)
      | .error e =>
        ({ r.2 with output := r.2.output ++ [.fileError md_file e] }, none)

/-- The file loop: run iterations in order until one lets an exception
escape (which aborts the whole loop) or the list is exhausted. -/
def processAll (env : ProcEnv) (config : Config) (wk : String) :
    List PyPath → S → S × Option PyErr
  | [], s => (s, none)
  | f :: fs, s =>
    match processOne env config wk f s with
    | (s', none) => processAll env config wk fs s'
    | (s', some e) => (s', some e)

/-- `process_directory` (main.py lines 227-261): load the config (a
failure propagates out), find the renderer (`sys.exit(1)` with install
instructions when absent), report and return when no Markdown files were
found, else announce the batch, loop over the files, and print the final
Done line. -/
def process_directory (env : ProcEnv) (s : S) : RunResult × S :=
  match env.loadConfigOutcome with
  | .error e => (.uncaught e, s)
  | .ok config =>
    match env.findResult with
    | none => (.exitFailure 1, { s with output := s.output ++ [.rendererMissing] })
    | some wk =>
      match env.files with
      | [] => (.exitSuccess, { s with output := s.output ++ [.noFiles] })
      | _ :: _ =>
        let s0 : S := { s with output := s.output ++ [.converting env.files.length] }
        match processAll env config wk env.files s0 with
        | (s', none) => (.exitSuccess, { s' with output := s'.output ++ [.done] })
        | (s', some e) => (.uncaught e, s')

/-- The console line that one file's iteration contributes when no
exception escapes it: the converter's success marker, or the logged
per-file error. -/
def fileEvent (env : ProcEnv) (config : Config) (wk : String) (md_file : PyPath) :
    OutEvent :=
  match (convert_markdown_to_pdf md_file [] wk config (env.convEnv md_file) S.init).1 with
  | .ok _ => .fileSuccess md_file
  | .error e => .fileError md_file e

/-! ### Concrete instances used by witnesses and counterexamples -/
/-- A configuration carrying every required style key of spec section 6. -/
def cfgFull : Config :=
  [(["document", "page_size"], "A4"),
   (["document", "margins", "top"], "20mm"),
   (["document", "margins", "right"], "20mm"),
   (["document", "margins", "bottom"], "20mm"),
   (["document", "margins", "left"], "20mm"),
   (["fonts", "main", "family"], "Arial"),
   (["fonts", "main", "size"], "12pt"),
   (["fonts", "main", "line_height"], "1.5"),
   (["fonts", "code", "family"], "Courier"),
   (["fonts", "code", "size"], "11pt"),
   (["fonts", "code", "background"], "#f5f5f5"),
   (["fonts", "code", "padding"], "2px"),
   (["fonts", "code", "border_radius"], "3px"),
   (["fonts", "pre", "family"], "Courier"),
   (["fonts", "pre", "size"], "11pt"),
   (["fonts", "pre", "background"], "#f5f5f5"),
   (["fonts", "pre", "padding"], "10px"),
   (["fonts", "pre", "border_radius"], "5px"),
   (["colors", "background"], "#ffffff"),
   (["colors", "text"], "#000000"),
   (["colors", "table_border"], "#cccccc"),
   (["colors", "table_header_bg"], "#eeeeee"),
   (["tables", "margin"], "10px"),
   (["tables", "border_width"], "1px"),
   (["tables", "cell_padding"], "5px"),
   (["images", "max_width"], "100%")]

/-- `cfgFull` with the required key `document.margins.right` removed. -/
def cfgNoMarginRight : Config :=
  cfgFull.filter (fun kv => kv.1 ≠ ["document", "margins", "right"])

/-- `cfgFull` with different values for `document.page_size` and the
right/bottom/left margins — the keys the CSS generator never reads. -/
def cfgAltMargins : Config :=
  cfgFull.map fun kv =>
    if kv.1 = ["document", "page_size"] then (kv.1, "Letter")
    else if kv.1 = ["document", "margins", "right"] then (kv.1, "99mm")
    else if kv.1 = ["document", "margins", "bottom"] then (kv.1, "98mm")
    else if kv.1 = ["document", "margins", "left"] then (kv.1, "97mm")
    else kv

/-- A conversion environment where every external operation succeeds. -/
def envConvOk : ConvEnv :=
  { writableEnv := ⟨false, .ok (), .ok ()⟩,
    readResult := .ok "# hello",
    mdRender := fun s => s,
    tempName := "/tmp/tmpabc.html",
    tempCreateOutcome := .ok (),
    tempWriteOutcome := .ok (),
    configurationOutcome := .ok (),
    renderOutcome := .ok () }

/-- `envConvOk` but with the external renderer invocation failing. -/
def envConvFail : ConvEnv := { envConvOk with renderOutcome := .error .ioError }

/-- `envConvOk` but with the write to the just-created temporary HTML
file failing (e.g. a full disk). -/
def envConvWriteFail : ConvEnv :=
  { envConvOk with tempWriteOutcome := .error .ioError }

/-- A renderer path, as the locator would return on Linux. -/
def wkPath : String := "/usr/bin/wkhtmltopdf"

/-- Two discovered Markdown files under the input root `in`. -/
def fileA : PyPath := [nm "in", nm "a.md"]

def fileB : PyPath := [nm "in", nm "b.md"]

/-- A run over an input tree with no Markdown files, everything healthy. -/
def envEmptyDir : ProcEnv :=
  { input_dir := [nm "in"], output_dir := [nm "out"],
    loadConfigOutcome := .ok cfgFull, findResult := some wkPath,
    files := [], mkdirOutcome := fun _ => .ok (),
    convEnv := fun _ => envConvOk }

/-- A run where the renderer is not found. -/
def envNoRenderer : ProcEnv := { envEmptyDir with findResult := none }

/-- A run where the configuration fails to load (renderer present). -/
def envCfgFail : ProcEnv :=
  { envEmptyDir with loadConfigOutcome := .error (.wrapped .ioError) }

/-- A run over two files where the first file's renderer invocation
fails and the second succeeds. -/
def envPerFileFail : ProcEnv :=
  { envEmptyDir with
    files := [fileA, fileB],
    convEnv := fun f => if f = fileA then envConvFail else envConvOk }

/-- A run over two files where creating the output parent directory
fails. -/
def envMkdirFail : ProcEnv :=
  { envEmptyDir with
    files := [fileA, fileB],
    mkdirOutcome := fun _ => .error .ioError }

/-! ## Theorems -/

/-! ### Helper lemmas about names and suffixes -/
theorem findIdx_eq_after_clean (pre : List Char) (rest : List Char)
    (h : ∀ c ∈ pre, c ≠ '.') :
    (pre ++ '.' :: rest).findIdx? (fun c => c = '.') = some pre.length := by
  induction pre with
  | nil => simp [List.findIdx?]
  | cons a as ih =>
    have ha : a ≠ '.' := h a (by simp)
    have hrest : ∀ c ∈ as, c ≠ '.' := fun c hc => h c (by simp [hc])
    rw [List.cons_append, List.findIdx?_cons]
    simp only [decide_eq_true_eq]
    rw [if_neg ha]
    rw [List.findIdx?_succ]
    rw [ih hrest]
    simp

/-- For a name `stem ++ ext` where `ext = '.' :: tail` with no dot in
`tail`, the last dot sits at index `stem.length`. -/
theorem lastDotIdx_stem_ext (stem tail : List Char)
    (h : ∀ c ∈ tail, c ≠ '.') :
    lastDotIdx (stem ++ '.' :: tail) = some stem.length := by
  unfold lastDotIdx
  have hrev : (stem ++ '.' :: tail).reverse = tail.reverse ++ '.' :: stem.reverse := by
    simp
  rw [hrev]
  have hclean : ∀ c ∈ tail.reverse, c ≠ '.' := by
    intro c hc; exact h c (List.mem_reverse.mp hc)
  rw [findIdx_eq_after_clean tail.reverse stem.reverse hclean]
  simp only [Option.some.injEq]
  have hlen : (stem ++ '.' :: tail).length = stem.length + (tail.length + 1) := by
    simp [List.length_append]
  have hr : tail.reverse.length = tail.length := List.length_reverse tail
  omega

theorem pySuffix_stem_ext (stem tail : List Char)
    (hstem : stem ≠ []) (h : ∀ c ∈ tail, c ≠ '.') (htail : tail ≠ []) :
    pySuffix (stem ++ '.' :: tail) = '.' :: tail := by
  unfold pySuffix
  rw [lastDotIdx_stem_ext stem tail h]
  dsimp only
  have h0 : 0 < stem.length := List.length_pos.mpr hstem
  have h1 : stem.length + 1 < (stem ++ '.' :: tail).length := by
    simp only [List.length_append, List.length_cons]
    have : 0 < tail.length := List.length_pos.mpr htail
    omega
  rw [if_pos ⟨h0, h1⟩]
  exact List.drop_left stem ('.' :: tail)

theorem pyWithSuffix_stem_ext (stem tail : List Char) (newSuffix : Name)
    (hstem : stem ≠ []) (h : ∀ c ∈ tail, c ≠ '.') (htail : tail ≠ []) :
    pyWithSuffix (stem ++ '.' :: tail) newSuffix = stem ++ newSuffix := by
  unfold pyWithSuffix
  rw [pySuffix_stem_ext stem tail hstem h htail]
  simp only []
  rw [if_neg (by simp)]
  have hlen : (stem ++ '.' :: tail).length - ('.' :: tail).length = stem.length := by
    simp [List.length_append]
  rw [hlen]
  congr 1
  exact List.take_left stem ('.' :: tail)

theorem relative_to_append (base rest : PyPath) :
    relative_to (base ++ rest) base = some rest := by
  unfold relative_to
  rw [if_pos (List.prefix_append base rest)]
  rw [List.drop_left]

theorem bind_exOk_elim {α β : Type} {x : Except PyErr α} {f : α → Except PyErr β}
    (h : exOk (x >>= f) = true) : ∃ a, x = .ok a ∧ exOk (f a) = true := by
  cases x with
  | ok a => exact ⟨a, rfl, by simpa [Bind.bind, Except.bind] using h⟩
  | error e => simp [exOk, Bind.bind, Except.bind] at h

theorem bind_error {α β : Type} (e : PyErr) (f : α → Except PyErr β) :
    ((Except.error e : Except PyErr α) >>= f) = .error e := rfl

theorem bind_ok {α β : Type} (a : α) (f : α → Except PyErr β) :
    ((Except.ok a : Except PyErr α) >>= f) = f a := rfl

/-! ### Lemmas: which keys the CSS generator and the options dict read -/

set_option maxHeartbeats 1000000 in
theorem generate_css_ok_keys {config : Config}
    (h : exOk (generate_css config) = true) :
    ∀ k ∈ cssKeys, exOk (lookupKey config k) = true := by
  unfold generate_css at h
  obtain ⟨v1, e1, h⟩ := bind_exOk_elim h
  obtain ⟨v2, e2, h⟩ := bind_exOk_elim h
  obtain ⟨v3, e3, h⟩ := bind_exOk_elim h
  obtain ⟨v4, e4, h⟩ := bind_exOk_elim h
  obtain ⟨v5, e5, h⟩ := bind_exOk_elim h
  obtain ⟨v6, e6, h⟩ := bind_exOk_elim h
  obtain ⟨v7, e7, h⟩ := bind_exOk_elim h
  obtain ⟨v8, e8, h⟩ := bind_exOk_elim h
  obtain ⟨v9, e9, h⟩ := bind_exOk_elim h
  obtain ⟨v10, e10, h⟩ := bind_exOk_elim h
  obtain ⟨v11, e11, h⟩ := bind_exOk_elim h
  obtain ⟨v12, e12, h⟩ := bind_exOk_elim h
  obtain ⟨v13, e13, h⟩ := bind_exOk_elim h
  obtain ⟨v14, e14, h⟩ := bind_exOk_elim h
  obtain ⟨v15, e15, h⟩ := bind_exOk_elim h
  obtain ⟨v16, e16, h⟩ := bind_exOk_elim h
  obtain ⟨v17, e17, h⟩ := bind_exOk_elim h
  obtain ⟨v18, e18, h⟩ := bind_exOk_elim h
  obtain ⟨v19, e19, h⟩ := bind_exOk_elim h
  obtain ⟨v20, e20, h⟩ := bind_exOk_elim h
  obtain ⟨v21, e21, h⟩ := bind_exOk_elim h
  obtain ⟨v22, e22, h⟩ := bind_exOk_elim h
  clear h
  intro k hk
  simp only [cssKeys, List.mem_cons, List.not_mem_nil, or_false] at hk
  rcases hk with rfl | rfl | rfl | rfl | rfl | rfl | rfl | rfl | rfl | rfl | rfl |
    rfl | rfl | rfl | rfl | rfl | rfl | rfl | rfl | rfl | rfl | rfl
  · rw [e1]; rfl
  · rw [e2]; rfl
  · rw [e3]; rfl
  · rw [e4]; rfl
  · rw [e5]; rfl
  · rw [e6]; rfl
  · rw [e7]; rfl
  · rw [e8]; rfl
  · rw [e9]; rfl
  · rw [e10]; rfl
  · rw [e11]; rfl
  · rw [e12]; rfl
  · rw [e13]; rfl
  · rw [e14]; rfl
  · rw [e15]; rfl
  · rw [e16]; rfl
  · rw [e17]; rfl
  · rw [e18]; rfl
  · rw [e19]; rfl
  · rw [e20]; rfl
  · rw [e21]; rfl
  · rw [e22]; rfl

theorem buildOptions_ok_keys {config : Config}
    (h : exOk (buildOptions config) = true) :
    ∀ k ∈ optionKeys, exOk (lookupKey config k) = true := by
  unfold buildOptions at h
  obtain ⟨v1, e1, h⟩ := bind_exOk_elim h
  obtain ⟨v2, e2, h⟩ := bind_exOk_elim h
  obtain ⟨v3, e3, h⟩ := bind_exOk_elim h
  obtain ⟨v4, e4, h⟩ := bind_exOk_elim h
  obtain ⟨v5, e5, h⟩ := bind_exOk_elim h
  clear h
  intro k hk
  simp only [optionKeys, List.mem_cons, List.not_mem_nil, or_false] at hk
  rcases hk with rfl | rfl | rfl | rfl | rfl
  · rw [e1]; rfl
  · rw [e2]; rfl
  · rw [e3]; rfl
  · rw [e4]; rfl
  · rw [e5]; rfl

/-- Every required style key of spec section 6 is read either by
`generate_css` or when the renderer options dict is built. -/
theorem requiredKeys_covered :
    ∀ k ∈ requiredKeys, k ∈ cssKeys ∨ k ∈ optionKeys := by decide

/-! ### Lemmas about one conversion -/
theorem convertInner_tempFiles (i : PyPath) (c : Config) (env : ConvEnv) (s : S)
    (hw : exOk env.tempWriteOutcome = true) :
    (convertInner i c env s).2.tempFiles = s.tempFiles := by
  unfold convertInner
  cases h1 : check_file_writable env.writableEnv with
  | error e => rfl
  | ok b =>
    cases b with
    | false => rfl
    | true =>
      cases h2 : env.readResult with
      | error e => rfl
      | ok md =>
        cases h3 : generate_css c with
        | error e => rfl
        | ok css =>
          dsimp only
          cases h4 : env.tempCreateOutcome with
          | error e => rfl
          | ok u0 =>
            cases h4b : env.tempWriteOutcome with
            | error e => rw [h4b] at hw; exact Bool.noConfusion hw
            | ok u1 =>
              dsimp only
              cases h4c : env.configurationOutcome with
              | error e => simp [List.eraseP_cons_of_pos]
              | ok u =>
                cases h5 : buildOptions c with
                | error e => simp [List.eraseP_cons_of_pos]
                | ok opts =>
                  cases h6 : env.renderOutcome with
                  | error e => simp [List.eraseP_cons_of_pos]
                  | ok u2 => simp [List.eraseP_cons_of_pos]

theorem convertInner_tempFiles_leak (i : PyPath) (c : Config) (env : ConvEnv)
    (s : S) :
    (convertInner i c env s).2.tempFiles = s.tempFiles ∨
    (exOk env.tempWriteOutcome = false ∧
     exOk (convertInner i c env s).1 = false ∧
     (convertInner i c env s).2.tempFiles.map Prod.fst =
       env.tempName :: s.tempFiles.map Prod.fst) := by
  unfold convertInner
  cases h1 : check_file_writable env.writableEnv with
  | error e => exact Or.inl rfl
  | ok b =>
    cases b with
    | false => exact Or.inl rfl
    | true =>
      cases h2 : env.readResult with
      | error e => exact Or.inl rfl
      | ok md =>
        cases h3 : generate_css c with
        | error e => exact Or.inl rfl
        | ok css =>
          dsimp only
          cases h4 : env.tempCreateOutcome with
          | error e => exact Or.inl rfl
          | ok u0 =>
            cases h4b : env.tempWriteOutcome with
            | error e => exact Or.inr ⟨rfl, rfl, by simp⟩
            | ok u1 =>
              dsimp only
              cases h4c : env.configurationOutcome with
              | error e => exact Or.inl (by simp [List.eraseP_cons_of_pos])
              | ok u =>
                cases h5 : buildOptions c with
                | error e => exact Or.inl (by simp [List.eraseP_cons_of_pos])
                | ok opts =>
                  cases h6 : env.renderOutcome with
                  | error e => exact Or.inl (by simp [List.eraseP_cons_of_pos])
                  | ok u2 => exact Or.inl (by simp [List.eraseP_cons_of_pos])

theorem convertInner_result (i : PyPath) (c : Config) (env : ConvEnv) (s s' : S) :
    (convertInner i c env s).1 = (convertInner i c env s').1 := by
  unfold convertInner
  cases h1 : check_file_writable env.writableEnv with
  | error e => rfl
  | ok b =>
    cases b with
    | false => rfl
    | true =>
      cases h2 : env.readResult with
      | error e => rfl
      | ok md =>
        cases h3 : generate_css c with
        | error e => rfl
        | ok css =>
          dsimp only
          cases h4 : env.tempCreateOutcome with
          | error e => rfl
          | ok u0 =>
            cases h4b : env.tempWriteOutcome with
            | error e => rfl
            | ok u1 =>
              dsimp only
              cases h4c : env.configurationOutcome with
              | error e => rfl
              | ok u =>
                cases h5 : buildOptions c with
                | error e => rfl
                | ok opts =>
                  cases h6 : env.renderOutcome with
                  | error e => rfl
                  | ok u2 => rfl

theorem convertInner_output (i : PyPath) (c : Config) (env : ConvEnv) (s : S) :
    (convertInner i c env s).2.output =
      s.output ++ (match (convertInner i c env s).1 with
        | .ok _ => [OutEvent.fileSuccess i]
        | .error _ => []) := by
  unfold convertInner
  cases h1 : check_file_writable env.writableEnv with
  | error e => simp
  | ok b =>
    cases b with
    | false => simp
    | true =>
      cases h2 : env.readResult with
      | error e => simp
      | ok md =>
        cases h3 : generate_css c with
        | error e => simp
        | ok css =>
          dsimp only
          cases h4 : env.tempCreateOutcome with
          | error e => simp
          | ok u0 =>
            cases h4b : env.tempWriteOutcome with
            | error e => simp
            | ok u1 =>
              dsimp only
              cases h4c : env.configurationOutcome with
              | error e => simp
              | ok u =>
                cases h5 : buildOptions c with
                | error e => simp
                | ok opts =>
                  cases h6 : env.renderOutcome with
                  | error e => simp
                  | ok u2 => simp

theorem convertInner_missing_key (i : PyPath) (c : Config) (env : ConvEnv) (s : S)
    (k : Key) (hk : k ∈ requiredKeys) (hmiss : exOk (lookupKey c k) = false) :
    exOk (convertInner i c env s).1 = false ∧
    (convertInner i c env s).2.renderCalls = s.renderCalls := by
  unfold convertInner
  cases h1 : check_file_writable env.writableEnv with
  | error e => exact ⟨rfl, rfl⟩
  | ok b =>
    cases b with
    | false => exact ⟨rfl, rfl⟩
    | true =>
      cases h2 : env.readResult with
      | error e => exact ⟨rfl, rfl⟩
      | ok md =>
        cases h3 : generate_css c with
        | error e => exact ⟨rfl, rfl⟩
        | ok css =>
          dsimp only
          cases h4 : env.tempCreateOutcome with
          | error e => exact ⟨rfl, rfl⟩
          | ok u0 =>
            cases h4b : env.tempWriteOutcome with
            | error e => exact ⟨rfl, rfl⟩
            | ok u1 =>
              dsimp only
              cases h4c : env.configurationOutcome with
              | error e => exact ⟨rfl, rfl⟩
              | ok u =>
                cases h5 : buildOptions c with
                | error e => exact ⟨rfl, rfl⟩
                | ok opts =>
                  exfalso
                  rcases requiredKeys_covered k hk with hc | ho
                  · have hok : exOk (lookupKey c k) = true :=
                      generate_css_ok_keys (by rw [h3]; rfl) k hc
                    rw [hok] at hmiss; exact Bool.noConfusion hmiss
                  · have hok : exOk (lookupKey c k) = true :=
                      buildOptions_ok_keys (by rw [h5]; rfl) k ho
                    rw [hok] at hmiss; exact Bool.noConfusion hmiss

theorem convert_state (i o : PyPath) (w : String) (c : Config) (env : ConvEnv)
    (s : S) :
    (convert_markdown_to_pdf i o w c env s).2 = (convertInner i c env s).2 := by
  unfold convert_markdown_to_pdf
  dsimp only
  cases h : (convertInner i c env s).1 with
  | ok u => rfl
  | error e => cases e <;> rfl

theorem convert_exOk (i o : PyPath) (w : String) (c : Config) (env : ConvEnv)
    (s : S) :
    exOk (convert_markdown_to_pdf i o w c env s).1 = exOk (convertInner i c env s).1 := by
  unfold convert_markdown_to_pdf
  dsimp only
  cases h : (convertInner i c env s).1 with
  | ok u => rfl
  | error e => cases e <;> rfl

theorem convert_result (i o o' : PyPath) (w : String) (c : Config) (env : ConvEnv)
    (s s' : S) :
    (convert_markdown_to_pdf i o w c env s).1 =
      (convert_markdown_to_pdf i o' w c env s').1 := by
  unfold convert_markdown_to_pdf
  dsimp only
  rw [convertInner_result i c env s s']
  cases h : (convertInner i c env s').1 with
  | ok u => rfl
  | error e => cases e <;> rfl

theorem convert_output (i o : PyPath) (w : String) (c : Config) (env : ConvEnv)
    (s : S) :
    (convert_markdown_to_pdf i o w c env s).2.output =
      s.output ++ (match (convert_markdown_to_pdf i o w c env s).1 with
        | .ok _ => [OutEvent.fileSuccess i]
        | .error _ => []) := by
  rw [convert_state]
  rw [convertInner_output i c env s]
  unfold convert_markdown_to_pdf
  dsimp only
  cases h : (convertInner i c env s).1 with
  | ok u => rfl
  | error e => cases e <;> rfl

/-! ### Lemmas about the file loop -/
theorem processOne_spec (env : ProcEnv) (config : Config) (wk : String)
    (f : PyPath) (s : S)
    (hout : (computeOutputPath env.input_dir env.output_dir f).isSome = true)
    (hmk : ∀ p, env.mkdirOutcome p = .ok ()) :
    (processOne env config wk f s).2 = none ∧
    (processOne env config wk f s).1.output =
      s.output ++ [fileEvent env config wk f] := by
  obtain ⟨op, hop⟩ := Option.isSome_iff_exists.mp hout
  unfold processOne
  rw [hop]
  dsimp only
  rw [hmk]
  dsimp only
  have hres : (convert_markdown_to_pdf f op wk config (env.convEnv f) s).1 =
      (convert_markdown_to_pdf f [] wk config (env.convEnv f) S.init).1 :=
    convert_result f op [] wk config (env.convEnv f) s S.init
  have hout2 := convert_output f op wk config (env.convEnv f) s
  cases hr2 : (convert_markdown_to_pdf f op wk config (env.convEnv f) s).1 with
  | ok u =>
    refine ⟨rfl, ?_⟩
    have hev : fileEvent env config wk f = .fileSuccess f := by
      unfold fileEvent
      rw [← hres, hr2]
    rw [hr2] at hout2
    dsimp only at hout2
    rw [hout2, hev]
  | error e =>
    refine ⟨rfl, ?_⟩
    have hev : fileEvent env config wk f = .fileError f e := by
      unfold fileEvent
      rw [← hres, hr2]
    rw [hr2] at hout2
    dsimp only at hout2
    rw [hout2, hev]
    simp

theorem processAll_spec (env : ProcEnv) (config : Config) (wk : String)
    (files : List PyPath) :
    ∀ s : S,
      (∀ f ∈ files, (computeOutputPath env.input_dir env.output_dir f).isSome = true) →
      (∀ p, env.mkdirOutcome p = .ok ()) →
      (processAll env config wk files s).2 = none ∧
      (processAll env config wk files s).1.output =
        s.output ++ files.map (fileEvent env config wk) := by
  induction files with
  | nil => exact fun s _ _ => ⟨rfl, by simp [processAll]⟩
  | cons f fs ih =>
    intro s hout hmk
    have h1 := processOne_spec env config wk f s (hout f (by simp)) hmk
    unfold processAll
    rcases hp : processOne env config wk f s with ⟨s', r⟩
    rw [hp] at h1
    dsimp only at h1
    cases r with
    | some e => exact absurd h1.1 (by simp)
    | none =>
      have h2 := ih s' (fun g hg => hout g (by simp [hg])) hmk
      refine ⟨h2.1, ?_⟩
      rw [h2.2, h1.2]
      simp

/-! ### The claims -/
/-- C1: For every Markdown file discovered under the input root (a file
whose final component is a nonempty stem followed by `.md` or
`.markdown`), the output path computed by `process_directory` equals the
file's path relative to the input root, re-rooted at the output
directory, with its extension replaced by `.pdf` (e.g. input root `/in`,
file `/in/a/b/note.md`, output root `/out` gives `/out/a/b/note.pdf`). -/
theorem claim_C1 (input_dir output_dir dirs : PyPath) (stem ext : Name)
    (hext : ext = mdExt ∨ ext = markdownExt) (hstem : stem ≠ []) :
    computeOutputPath input_dir output_dir (input_dir ++ (dirs ++ [stem ++ ext])) =
      some (output_dir ++ (dirs ++ [stem ++ pdfExt])) := by
  unfold computeOutputPath
  rw [relative_to_append]
  simp only [Option.map_some']
  congr 2
  unfold path_with_suffix
  rw [List.dropLast_concat, List.getLastD_concat]
  congr 1
  rcases hext with rfl | rfl
  · have hmd : mdExt = '.' :: ['m', 'd'] := rfl
    rw [hmd]
    exact congrArg (fun n => [n])
      (pyWithSuffix_stem_ext stem ['m', 'd'] pdfExt hstem (by decide) (by decide))
  · have hmk : markdownExt = '.' :: ['m', 'a', 'r', 'k', 'd', 'o', 'w', 'n'] := rfl
    rw [hmk]
    exact congrArg (fun n => [n])
      (pyWithSuffix_stem_ext stem ['m', 'a', 'r', 'k', 'd', 'o', 'w', 'n'] pdfExt
        hstem (by decide) (by decide))

/-- Witness for C1: input root `in`, file `in/a/b/note.md`, output root
`out` gives `out/a/b/note.pdf`. -/
theorem claim_C1_witness :
    (nm "note" ≠ ([] : Name)) ∧
    computeOutputPath [nm "in"] [nm "out"] [nm "in", nm "a", nm "b", nm "note.md"] =
      some [nm "out", nm "a", nm "b", nm "note.pdf"] :=
  ⟨by decide,
   claim_C1 [nm "in"] [nm "out"] [nm "a", nm "b"] (nm "note") mdExt
     (Or.inl rfl) (by decide)⟩

/-- C2 counterexample: when the write to the just-created temporary HTML
file fails, the call fails but the temporary file SURVIVES on disk — the
file is created by `NamedTemporaryFile(delete=False)` at main.py:189 and
written inside the `with` block, before the `try/finally` holding
`os.unlink` is entered, so on this failure path nothing deletes it.  This
refutes the claim that every temporary file the call creates is deleted
on every failure path. -/
theorem claim_C2_counterexample :
    exOk (convert_markdown_to_pdf fileA [nm "out", nm "a.pdf"] wkPath cfgFull
        envConvWriteFail S.init).1 = false ∧
    (convert_markdown_to_pdf fileA [nm "out", nm "a.pdf"] wkPath cfgFull
        envConvWriteFail S.init).2.tempFiles.map Prod.fst =
      ["/tmp/tmpabc.html"] ∧
    S.init.tempFiles = [] := ⟨rfl, rfl, rfl⟩

/-- C2 (amended): whenever the write of the styled HTML into the
temporary file does not itself fail, every temporary HTML file the call
creates is deleted before the call returns, on the success path and on
every failure path (configuration, options-building, renderer failures
included); and in general either the temp-file set is exactly preserved,
or the write failed, the call failed, and exactly the one just-created
temporary file is left behind (its `delete=False` file was created
before the unlink-bearing `try/finally` was entered). -/
theorem claim_C2 (input_path output_path : PyPath) (w : String) (c : Config)
    (env : ConvEnv) (s : S) :
    (exOk env.tempWriteOutcome = true →
      (convert_markdown_to_pdf input_path output_path w c env s).2.tempFiles =
        s.tempFiles) ∧
    ((convert_markdown_to_pdf input_path output_path w c env s).2.tempFiles =
        s.tempFiles ∨
      (exOk env.tempWriteOutcome = false ∧
       exOk (convert_markdown_to_pdf input_path output_path w c env s).1 = false ∧
       (convert_markdown_to_pdf input_path output_path w c env
           s).2.tempFiles.map Prod.fst =
         env.tempName :: s.tempFiles.map Prod.fst)) := by
  rw [convert_state, convert_exOk]
  exact ⟨fun hw => convertInner_tempFiles input_path c env s hw,
    convertInner_tempFiles_leak input_path c env s⟩

/-- Witness for C2 at a concrete environment whose temp-file write
succeeds and whose renderer invocation fails: the temp-file set is
preserved. -/
theorem claim_C2_witness :
    exOk envConvFail.tempWriteOutcome = true ∧
    (convert_markdown_to_pdf fileA [nm "out", nm "a.pdf"] wkPath cfgFull
        envConvFail S.init).2.tempFiles = S.init.tempFiles :=
  ⟨rfl,
   (claim_C2 fileA [nm "out", nm "a.pdf"] wkPath cfgFull envConvFail S.init).1 rfl⟩

/-- C7: `check_file_writable` returns True for an existing path iff the
path can be opened for append, and for a non-existing path iff a
temporary file can be created in its parent directory. -/
theorem claim_C7 (e : FileEnv) :
    check_file_writable e = .ok true ↔
      ((e.fileExists = true ∧ e.openAppend = .ok ()) ∨
       (e.fileExists = false ∧ e.tempCreate = .ok ())) := by
  unfold check_file_writable
  cases hex : e.fileExists
  · cases ht : e.tempCreate with
    | ok u => cases u; simp
    | error err => cases herr : err.isIOError <;> simp [herr, ht]
  · cases ho : e.openAppend with
    | ok u => cases u; simp
    | error err => cases herr : err.isIOError <;> simp [herr, ho]

/-- Witness for C7 at a concrete environment: an existing, appendable
path is writable. -/
theorem claim_C7_witness :
    check_file_writable ⟨true, .ok (), .ok ()⟩ = .ok true ↔
      ((true = true ∧ (.ok () : Except PyErr Unit) = .ok ()) ∨
       (true = false ∧ (.ok () : Except PyErr Unit) = .ok ())) :=
  claim_C7 ⟨true, .ok (), .ok ()⟩

/-- C10: for a path that does not exist and whose parent directory does
not exist either, the temporary-file creation fails with
`FileNotFoundError` — an `IOError` — and `check_file_writable` catches it
and returns False instead of propagating the exception. -/
theorem claim_C10 (e : FileEnv) (hex : e.fileExists = false)
    (hfail : e.tempCreate = .error .ioError) :
    check_file_writable e = .ok false := by
  unfold check_file_writable
  rw [hex, hfail]
  rfl

/-- Witness for C10 at a concrete environment. -/
theorem claim_C10_witness :
    (FileEnv.mk false (.ok ()) (.error .ioError)).fileExists = false ∧
    (FileEnv.mk false (.ok ()) (.error .ioError)).tempCreate = .error .ioError ∧
    check_file_writable (FileEnv.mk false (.ok ()) (.error .ioError)) = .ok false :=
  ⟨rfl, rfl, claim_C10 (FileEnv.mk false (.ok ()) (.error .ioError)) rfl rfl⟩

/-- C3 counterexample: a configuration missing the required key
`document.margins.right` does NOT make CSS generation fail — the claim
that CSS generation fails with a lookup error for every missing required
key (including margins.right/bottom/left and page_size) is false, because
`generate_css` never reads those four keys. -/
theorem claim_C3_counterexample :
    lookupKey cfgNoMarginRight ["document", "margins", "right"] =
      .error (.keyError ["document", "margins", "right"]) ∧
    exOk (generate_css cfgNoMarginRight) = true := by
  exact ⟨rfl, rfl⟩

/-- C3 (amended): if the configuration is missing any required style key,
the conversion fails and the PDF renderer is never invoked; when the
missing key is one of those `generate_css` reads, CSS generation itself
fails with a lookup error and no partial CSS text is produced.  (The four
keys `document.margins.right/bottom/left` and `document.page_size` are
instead read while building renderer options — still before rendering.) -/
theorem claim_C3 (c : Config) (k : Key) (i o : PyPath) (w : String)
    (env : ConvEnv) (s : S) (hk : k ∈ requiredKeys)
    (hmiss : exOk (lookupKey c k) = false) :
    exOk (convert_markdown_to_pdf i o w c env s).1 = false ∧
    (convert_markdown_to_pdf i o w c env s).2.renderCalls = s.renderCalls ∧
    (k ∈ cssKeys → exOk (generate_css c) = false) := by
  have h := convertInner_missing_key i c env s k hk hmiss
  refine ⟨?_, ?_, ?_⟩
  · rw [convert_exOk]; exact h.1
  · rw [convert_state]; exact h.2
  · intro hc
    cases hg : generate_css c with
    | error e => rfl
    | ok css =>
      have hok := generate_css_ok_keys (by rw [hg]; rfl) k hc
      rw [hok] at hmiss
      exact Bool.noConfusion hmiss

/-- Witness for C3 at the concrete configuration missing
`document.margins.right`. -/
theorem claim_C3_witness :
    (["document", "margins", "right"] ∈ requiredKeys ∧
     exOk (lookupKey cfgNoMarginRight ["document", "margins", "right"]) = false) ∧
    (exOk (convert_markdown_to_pdf fileA [nm "out", nm "a.pdf"] wkPath
        cfgNoMarginRight envConvOk S.init).1 = false ∧
     (convert_markdown_to_pdf fileA [nm "out", nm "a.pdf"] wkPath
        cfgNoMarginRight envConvOk S.init).2.renderCalls = S.init.renderCalls ∧
     (["document", "margins", "right"] ∈ cssKeys →
      exOk (generate_css cfgNoMarginRight) = false)) :=
  ⟨⟨by decide, rfl⟩,
   claim_C3 cfgNoMarginRight ["document", "margins", "right"] fileA
     [nm "out", nm "a.pdf"] wkPath envConvOk S.init (by decide) rfl⟩

/-- C6: `find_wkhtmltopdf` is exactly the strictly ordered
first-match-wins composition of its three stages — the PATH search
(accepted only on a zero exit code), the fixed per-OS list of well-known
install paths (first existing wins), and the Windows-only recursive scan
of both Program Files roots — returning `None` when all three stages find
nothing. -/
theorem claim_C6 (env : LocEnv) : find_wkhtmltopdf env = locator_spec env := by
  unfold find_wkhtmltopdf locator_spec stagePATH stageCommon stageWalk afterPathCheck
  cases h : env.runOutcome with
  | error e =>
    cases hf : (common_paths env).find? env.pathExists <;>
      simp [Option.orElse]
  | ok p =>
    obtain ⟨code, out⟩ := p
    by_cases hc : code = 0
    · simp [hc, Option.orElse]
    · cases hf : (common_paths env).find? env.pathExists <;>
        simp [hc, Option.orElse]

/-- C8: when the configuration loads and the renderer is found but the
input tree contains no Markdown files, the batch reports that no files
were found, performs zero renderer invocations, and terminates
successfully (a no-op, not an error). -/
theorem claim_C8 (env : ProcEnv) (s : S) (config : Config) (w : String)
    (hcfg : env.loadConfigOutcome = .ok config)
    (hfind : env.findResult = some w)
    (hempty : env.files = []) :
    (process_directory env s).1 = .exitSuccess ∧
    (process_directory env s).2.output = s.output ++ [OutEvent.noFiles] ∧
    (process_directory env s).2.renderCalls = s.renderCalls := by
  unfold process_directory
  rw [hcfg, hfind, hempty]
  exact ⟨rfl, rfl, rfl⟩

/-- Witness for C8 at a concrete healthy run over an empty input tree. -/
theorem claim_C8_witness :
    (process_directory envEmptyDir S.init).1 = .exitSuccess ∧
    (process_directory envEmptyDir S.init).2.output =
      S.init.output ++ [OutEvent.noFiles] ∧
    (process_directory envEmptyDir S.init).2.renderCalls = S.init.renderCalls :=
  claim_C8 envEmptyDir S.init cfgFull wkPath rfl rfl rfl

/-- C9: two configuration mappings that agree on every key read by
`generate_css` produce identical CSS text — in particular configurations
differing only in `document.margins.right`, `document.margins.bottom`,
`document.margins.left` or `document.page_size` yield the same CSS: of
the four margins, only `document.margins.top` (the body margin)
influences the generated CSS. -/
theorem claim_C9 (c1 c2 : Config)
    (h : ∀ k ∈ cssKeys, lookupKey c1 k = lookupKey c2 k) :
    generate_css c1 = generate_css c2 := by
  have h1 := h ["fonts", "main", "family"] (by decide)
  have h2 := h ["fonts", "main", "size"] (by decide)
  have h3 := h ["fonts", "main", "line_height"] (by decide)
  have h4 := h ["document", "margins", "top"] (by decide)
  have h5 := h ["colors", "background"] (by decide)
  have h6 := h ["colors", "text"] (by decide)
  have h7 := h ["fonts", "code", "family"] (by decide)
  have h8 := h ["fonts", "code", "size"] (by decide)
  have h9 := h ["fonts", "code", "background"] (by decide)
  have h10 := h ["fonts", "code", "padding"] (by decide)
  have h11 := h ["fonts", "code", "border_radius"] (by decide)
  have h12 := h ["fonts", "pre", "family"] (by decide)
  have h13 := h ["fonts", "pre", "size"] (by decide)
  have h14 := h ["fonts", "pre", "background"] (by decide)
  have h15 := h ["fonts", "pre", "padding"] (by decide)
  have h16 := h ["fonts", "pre", "border_radius"] (by decide)
  have h17 := h ["tables", "margin"] (by decide)
  have h18 := h ["tables", "border_width"] (by decide)
  have h19 := h ["colors", "table_border"] (by decide)
  have h20 := h ["tables", "cell_padding"] (by decide)
  have h21 := h ["colors", "table_header_bg"] (by decide)
  have h22 := h ["images", "max_width"] (by decide)
  unfold generate_css
  rw [h1, h2, h3, h4, h5, h6, h7, h8, h9, h10, h11, h12, h13, h14, h15, h16,
    h17, h18, h19, h20, h21, h22]

/-- Witness for C9: `cfgFull` and `cfgAltMargins` differ in
`document.margins.right` and `document.page_size` yet generate identical
CSS. -/
theorem claim_C9_witness :
    lookupKey cfgFull ["document", "margins", "right"] ≠
      lookupKey cfgAltMargins ["document", "margins", "right"] ∧
    lookupKey cfgFull ["document", "page_size"] ≠
      lookupKey cfgAltMargins ["document", "page_size"] ∧
    generate_css cfgFull = generate_css cfgAltMargins :=
  ⟨by decide, by decide, claim_C9 cfgFull cfgAltMargins (by decide)⟩

/-- C4 counterexample: with the renderer located but the configuration
failing to load, the unhandled exception makes the run exit non-zero — so
a non-zero exit is not limited to the renderer-not-found case. -/
theorem claim_C4_counterexample :
    envCfgFail.findResult = some wkPath ∧
    exitCode (process_directory envCfgFail S.init).1 = 1 := ⟨rfl, rfl⟩

/-- C4 (amended): the process exits non-zero when the renderer cannot be
located, and also when a fatal error escapes `process_directory` (a
configuration-load failure, or a relative-path / parent-directory-creation
failure in the loop, which sits outside the per-file try).  Per-file
conversion failures alone never change the exit status: with the config
loaded, the renderer found, every file under the input root and parent
creation succeeding, the run exits successfully whatever the per-file
conversion outcomes are. -/
theorem claim_C4 :
    (∀ (env : ProcEnv) (s : S) (config : Config),
      env.loadConfigOutcome = .ok config → env.findResult = none →
      (process_directory env s).1 = .exitFailure 1) ∧
    (∀ (env : ProcEnv) (s : S) (config : Config) (w : String),
      env.loadConfigOutcome = .ok config → env.findResult = some w →
      (∀ f ∈ env.files,
        (computeOutputPath env.input_dir env.output_dir f).isSome = true) →
      (∀ p, env.mkdirOutcome p = .ok ()) →
      (process_directory env s).1 = .exitSuccess) := by
  constructor
  · intro env s config hcfg hfind
    unfold process_directory
    rw [hcfg, hfind]
  · intro env s config w hcfg hfind hout hmk
    unfold process_directory
    rw [hcfg, hfind]
    dsimp only
    cases hfiles : env.files with
    | nil => rfl
    | cons f fs =>
      rw [hfiles] at hout
      have h := processAll_spec env config w (f :: fs)
        { s with output := s.output ++ [OutEvent.converting (f :: fs).length] }
        hout hmk
      rcases hpa : processAll env config w (f :: fs)
        { s with output := s.output ++ [OutEvent.converting (f :: fs).length] }
        with ⟨s', r⟩
      rw [hpa] at h
      dsimp only at h
      cases r with
      | none => rfl
      | some e => exact absurd h.1 (by simp)

/-- Witness for C4: a run with the renderer missing exits 1; a healthy
run over two files whose first conversion fails still exits successfully
(and that first conversion really does fail). -/
theorem claim_C4_witness :
    (process_directory envNoRenderer S.init).1 = .exitFailure 1 ∧
    (process_directory envPerFileFail S.init).1 = .exitSuccess ∧
    exOk (convert_markdown_to_pdf fileA [] wkPath cfgFull envConvFail S.init).1 =
      false :=
  ⟨claim_C4.1 envNoRenderer S.init cfgFull rfl rfl,
   claim_C4.2 envPerFileFail S.init cfgFull wkPath rfl rfl (by decide)
     (fun _ => rfl),
   rfl⟩

/-- C5 counterexample: with two discovered files and the creation of the
output parent directory failing (it sits outside the per-file try), the
failure is not caught: it is not logged as a per-file error, the second
file is never attempted, and no final done signal is emitted — the batch
aborts with an unhandled exception. -/
theorem claim_C5_counterexample :
    (process_directory envMkdirFail S.init).1 = .uncaught .ioError ∧
    (process_directory envMkdirFail S.init).2.output =
      [OutEvent.converting 2] := ⟨rfl, rfl⟩

/-- C5 (amended): for every discovered file whose conversion
(`convert_markdown_to_pdf`) fails, `process_directory` catches the
failure, logs it with the offending path, and continues; after all files
are attempted the done signal is emitted and the run exits successfully.
(However a failure to compute the relative path or to create the output
parent directories is NOT caught and aborts the batch, so the hypotheses
exclude those.) -/
theorem claim_C5 (env : ProcEnv) (s : S) (config : Config) (w : String)
    (hcfg : env.loadConfigOutcome = .ok config)
    (hfind : env.findResult = some w)
    (hne : env.files ≠ [])
    (hout : ∀ f ∈ env.files,
      (computeOutputPath env.input_dir env.output_dir f).isSome = true)
    (hmk : ∀ p, env.mkdirOutcome p = .ok ()) :
    (process_directory env s).1 = .exitSuccess ∧
    (process_directory env s).2.output =
      s.output ++ (OutEvent.converting env.files.length ::
        (env.files.map (fileEvent env config w) ++ [OutEvent.done])) := by
  unfold process_directory
  rw [hcfg, hfind]
  dsimp only
  cases hfiles : env.files with
  | nil => exact absurd hfiles hne
  | cons f fs =>
    rw [hfiles] at hout
    have h := processAll_spec env config w (f :: fs)
      { s with output := s.output ++ [OutEvent.converting (f :: fs).length] }
      hout hmk
    rcases hpa : processAll env config w (f :: fs)
      { s with output := s.output ++ [OutEvent.converting (f :: fs).length] }
      with ⟨s', r⟩
    rw [hpa] at h
    dsimp only at h
    cases r with
    | some e => exact absurd h.1 (by simp)
    | none =>
      refine ⟨rfl, ?_⟩
      dsimp only
      rw [h.2]
      simp

/-- Witness for C5: the healthy two-file run with one failing conversion
exits successfully with one console line per file and a final done. -/
theorem claim_C5_witness :
    (process_directory envPerFileFail S.init).1 = .exitSuccess ∧
    (process_directory envPerFileFail S.init).2.output =
      S.init.output ++ (OutEvent.converting envPerFileFail.files.length ::
        (envPerFileFail.files.map (fileEvent envPerFileFail cfgFull wkPath) ++
          [OutEvent.done])) :=
  claim_C5 envPerFileFail S.init cfgFull wkPath rfl rfl (by decide) (by decide)
    (fun _ => rfl)

end MdToPdf
